import Mathlib

/-!
Verification of the smart-finance transaction service.

The service (a single FastAPI module) is shallowly embedded here:
* a `Transaction` record mirrors the pydantic `Transaction` schema
  (the `id : UUID` is kept as its canonical string; `amount : float` is
  modelled as `ℚ`; `timestamp : datetime` is opaque, modelled as `Int`);
* the SQLite table of `TransactionDB` rows is a `List Transaction` in
  insertion order; the primary-key constraint on `id` makes an insert of a
  duplicate id fail (`IntegrityError`), modelled by `ApiError.conflict`;
* the id column parameter needs care: the submit handler binds `str(tx.id)`,
  but the simulator binds the raw `uuid.UUID` object out of `tx.dict()`,
  which the sqlite3 driver cannot bind into the `String` column — that
  deterministic `InterfaceError` is modelled by `PyValue` / `bindParam`;
* each HTTP handler becomes a function from the store (and its other
  inputs) to an `Except ApiError` result, returning the new store where it
  writes; Python exceptions escaping a handler are the `.error` cases;
* `random.*` draws made by the simulator are passed in as an explicit
  stream of `SimDraw` values; `random.choice` on a fixed list becomes
  indexing modulo the list length.
-/

deriving instance DecidableEq for Except

namespace SmartFinance

/-- The transaction record: pydantic schema `Transaction` (and, field for
field, the database row `TransactionDB`). -/
structure Transaction where
  id : String
  user_id : String
  amount : ℚ
  currency : String
  timestamp : Int
  merchant : String
  location : String
  category : String
  is_fraud : Bool
deriving Repr, DecidableEq

/-- Errors a handler can surface: a duplicate-primary-key insert
(`sqlalchemy IntegrityError`), the explicit 404 of `get_transaction`, the
`ValueError` that `max` raises on an empty dict in `user_insights`, and the
`sqlite3 InterfaceError` raised when an unsupported Python object (the raw
`uuid.UUID` in the simulator) is bound as a column parameter. -/
inductive ApiError where
  | conflict
  | notFound
  | valueError
  | interfaceError
deriving Repr, DecidableEq

/-- Config constant `EMAIL_ALERTS_ENABLED = False`. -/
def EMAIL_ALERTS_ENABLED : Bool := false

/-- Config constant `ALERT_EMAIL`. -/
def ALERT_EMAIL : String := "alert@example.com"

/-- The fraud allow-list hard-coded in `detect_fraud`. -/
def fraud_allowed_locations : List String := ["Cape Town", "Johannesburg", "Durban"]

/-- `detect_fraud`: amount above 10000, or location outside the allow-list. -/
def detect_fraud (t : Transaction) : Bool :=
  if t.amount > 10000 then true
  else if !(fraud_allowed_locations.any (fun l => decide (l = t.location))) then true
  else false

/-- Observable outcome of `send_email_alert`: the store it can see (it never
touches it), the log lines it wrote, and the emails that went out
(from-address, to-address, message). -/
structure NotifyResult where
  store : List Transaction
  logs : List String
  emails : List (String × String × String)
deriving Repr, DecidableEq

/-- The body of the fraud-alert email. -/
def alert_message (t : Transaction) : String :=
  "Subject: Fraud Alert\n\nTransaction flagged as fraud:\n" ++ reprStr t

/-- `send_email_alert`: a no-op when the flag is off; otherwise tries the
SMTP send (its outcome is the `smtp` argument) and, on failure, logs and
swallows the exception. It returns `Except` so that "never raises" is a
provable fact, not a typing artefact. -/
def send_email_alert (enabled : Bool) (smtp : Except String Unit)
    (t : Transaction) (store : List Transaction) : Except String NotifyResult :=
  if !enabled then .ok ⟨store, [], []⟩
  else
    match smtp with
    | .ok _ => .ok ⟨store, [], [("from@example.com", ALERT_EMAIL, alert_message t)]⟩
    | .error e => .ok ⟨store, ["Failed to send email: " ++ e], []⟩

/-- The store write performed by the handlers: `session.add` + `commit` of a
fresh row. The primary key on `id` rejects a duplicate (`IntegrityError`);
otherwise the row is appended. -/
def save (store : List Transaction) (t : Transaction) :
    Except ApiError (List Transaction) :=
  if store.any (fun s => decide (s.id = t.id)) then .error .conflict
  else .ok (store ++ [t])

/-- Successful result of the `POST /transactions` handler: the response body,
the store after the commit, and whether a background alert task was
scheduled. -/
structure SubmitOk where
  resp : Transaction
  store : List Transaction
  alerted : Bool
deriving Repr, DecidableEq

/-- `submit_transaction`: overwrite `is_fraud` with `detect_fraud`, persist,
schedule the notifier iff flagged, return the transaction. -/
def submit_transaction (store : List Transaction) (tx : Transaction) :
    Except ApiError SubmitOk :=
  let tx' := { tx with is_fraud := detect_fraud tx }
  match save store tx' with
  | .error e => .error e
  | .ok store' => .ok ⟨tx', store', tx'.is_fraud⟩

/-- `GET /transactions`: every row, rebuilt as a `Transaction`. -/
def get_transactions (store : List Transaction) : List Transaction :=
  store.map (fun t => t)

/-- `GET /transactions/{tx_id}`: first row whose id matches, else 404. -/
def get_transaction (store : List Transaction) (tx_id : String) :
    Except ApiError Transaction :=
  match store.find? (fun t => decide (t.id = tx_id)) with
  | some t => .ok t
  | none => .error .notFound

/-- One iteration's worth of random draws inside `simulate_transactions`:
the uuid for the new record, `randint(100, 999)`, `round(uniform(10, 20000), 2)`,
the current UTC time, and the three `random.choice` picks (as indices). -/
structure SimDraw where
  id : String
  user_num : Nat
  amount : ℚ
  timestamp : Int
  merchant_k : Nat
  location_k : Nat
  category_k : Nat
deriving Repr, DecidableEq

/-- `merchants` list of the simulator. -/
def sim_merchants : List String := ["Uber", "Checkers", "Takealot", "Netflix", "Woolworths"]

/-- `locations` list of the simulator (note "London", outside the allow-list). -/
def sim_locations : List String := ["Cape Town", "Johannesburg", "London"]

/-- `categories` list of the simulator. -/
def sim_categories : List String := ["Transport", "Groceries", "Entertainment", "Shopping"]

/-- `random.choice(l)`: some element of `l`, here the one at the drawn index
reduced modulo the length. -/
def pick (l : List String) (k : Nat) : String := l.getD (k % l.length) ""

/-- One synthetic transaction built from one `SimDraw`, with `is_fraud`
overwritten by `detect_fraud` exactly as in the loop body. -/
def make_sim_tx (d : SimDraw) : Transaction :=
  let base : Transaction := {
    id := d.id,
    user_id := toString d.user_num,
    amount := d.amount,
    currency := "ZAR",
    timestamp := d.timestamp,
    merchant := pick sim_merchants d.merchant_k,
    location := pick sim_locations d.location_k,
    category := pick sim_categories d.category_k,
    is_fraud := false }
  { base with is_fraud := detect_fraud base }

/-- Default of the handler's `n: int = 5` parameter. -/
def simulate_default_n : Int := 5

/-- The Python value handed to the sqlite3 driver for the id column: the
submit handler passes `str(tx.id)`; the simulator's `TransactionDB(**tx.dict())`
passes the raw `uuid.UUID` object, because pydantic's `.dict()` does not
stringify it. Either way the value carries the uuid's text. -/
inductive PyValue where
  | pystr (s : String)
  | pyuuid (s : String)
deriving Repr, DecidableEq

/-- sqlite3 parameter binding into the `String` primary-key column: a `str`
binds as-is; a raw `uuid.UUID` object is an unsupported type and raises
`InterfaceError`. -/
def bindParam : PyValue → Except ApiError String
  | .pystr s => .ok s
  | .pyuuid _ => .error .interfaceError

/-- A `TransactionDB` row as handed to the driver at flush: the id column
still a Python value to bind, every other column already a primitive (the
`DateTime`/`Boolean` columns have their own working converters). -/
structure RowParams where
  id : PyValue
  user_id : String
  amount : ℚ
  currency : String
  timestamp : Int
  merchant : String
  location : String
  category : String
  is_fraud : Bool
deriving Repr, DecidableEq

/-- Driver-level insert of one row: bind the id parameter, yielding the
stored row or the binding error. -/
def bindRow (r : RowParams) : Except ApiError Transaction :=
  match bindParam r.id with
  | .error e => .error e
  | .ok s =>
      .ok ⟨s, r.user_id, r.amount, r.currency, r.timestamp, r.merchant,
        r.location, r.category, r.is_fraud⟩

/-- Bind a batch of rows in order; the first failing bind aborts the flush. -/
def bindRows : List RowParams → Except ApiError (List Transaction)
  | [] => .ok []
  | r :: rest =>
      match bindRow r with
      | .error e => .error e
      | .ok t =>
          match bindRows rest with
          | .error e => .error e
          | .ok ts => .ok (t :: ts)

/-- One commit of a batch of added rows: bind every parameter (first failure
raises), then the primary key rejects a drawn id colliding with the store or
within the batch; otherwise all rows are appended. -/
def commit_batch (store : List Transaction) (rows : List RowParams) :
    Except ApiError (List Transaction) :=
  match bindRows rows with
  | .error e => .error e
  | .ok txs =>
      if txs.all (fun t => !store.any (fun s => decide (s.id = t.id))) = true
          ∧ (txs.map (fun t => t.id)).Nodup then
        .ok (store ++ txs)
      else .error .conflict

/-- The simulator's `TransactionDB(**tx.dict())`: unlike the submit handler's
explicit `id=str(tx.id)`, `.dict()` leaves `id` as the raw `uuid.UUID`
object, so the id column parameter is the unconverted object. -/
def make_sim_row (d : SimDraw) : RowParams :=
  let tx := make_sim_tx d
  { id := PyValue.pyuuid d.id, user_id := tx.user_id, amount := tx.amount,
    currency := tx.currency, timestamp := tx.timestamp,
    merchant := tx.merchant, location := tx.location,
    category := tx.category, is_fraud := tx.is_fraud }

/-- The batch built by `for _ in range(n)`: empty when `n ≤ 0`. -/
def sim_rows (draws : Nat → SimDraw) (n : Int) : List RowParams :=
  (List.range n.toNat).map (fun i => make_sim_row (draws i))

/-- `POST /simulate`: build the batch, `add` each row, `commit` once, then
report the count. -/
def simulate_transactions (store : List Transaction) (n : Int)
    (draws : Nat → SimDraw) : Except ApiError (String × List Transaction) :=
  match commit_batch store (sim_rows draws n) with
  | .error e => .error e
  | .ok store' => .ok (toString n ++ " transactions simulated.", store')

/-- In-place add into a Python dict viewed as an insertion-ordered
association list: `m[k] = m.get(k, 0) + v`. An existing key keeps its
position; a new key goes to the back. -/
def assocAdd {α : Type} [Add α] (m : List (String × α)) (k : String) (v : α) :
    List (String × α) :=
  match m with
  | [] => [(k, v)]
  | p :: rest => if p.1 = k then (p.1, p.2 + v) :: rest else p :: assocAdd rest k v

/-- `m.get(k, 0)`. -/
def lookup0 {α : Type} [Zero α] : List (String × α) → String → α
  | [], _ => 0
  | p :: rest, k => if p.1 = k then p.2 else lookup0 rest k

/-- The keys of the dict, in iteration order. -/
def keys0 {α : Type} (m : List (String × α)) : List String := m.map (fun p => p.1)

/-- One comparison step of Python `max`: a later entry replaces the current
best only when strictly greater. -/
def maxStep (best q : String × ℚ) : String × ℚ :=
  if q.2 > best.2 then q else best

/-- Python `max(d, key=d.get)` on the association list: `none` on the empty
dict (a `ValueError` in Python); otherwise the first entry whose value is
maximal. -/
def maxByVal : List (String × ℚ) → Option (String × ℚ)
  | [] => none
  | p :: rest => some (rest.foldl maxStep p)

/-- Response of `GET /insights/{user_id}`. -/
structure Insights where
  user_id : String
  total_spent : ℚ
  by_category : List (String × ℚ)
  recurring_merchants : List String
  advice : String
deriving Repr, DecidableEq

/-- `user_insights`: fetch the user's rows, sum the amounts, accumulate the
per-category totals and per-merchant counts, keep merchants seen more than
twice, and build the advice line around the arg-max category; building the
advice raises (`ValueError`) when the user has no rows. -/
def user_insights (store : List Transaction) (uid : String) :
    Except ApiError Insights :=
  let txs := store.filter (fun t => decide (t.user_id = uid))
  let total_spent : ℚ := (txs.map (fun t => t.amount)).sum
  let by_category := txs.foldl (fun m t => assocAdd m t.category t.amount) []
  let recurring := txs.foldl (fun m t => assocAdd m t.merchant (1 : Nat)) []
  let common_merchants := (recurring.filter (fun p => p.2 > 2)).map (fun p => p.1)
  match maxByVal by_category with
  | none => .error .valueError
  | some best =>
      .ok { user_id := uid, total_spent := total_spent,
            by_category := by_category,
            recurring_merchants := common_merchants,
            advice := "Consider budgeting for high-spend categories like " ++ best.1 }

/-- Total amount of the transactions of `txs` in category `c`. -/
def category_total (txs : List Transaction) (c : String) : ℚ :=
  ((txs.filter (fun t => decide (t.category = c))).map (fun t => t.amount)).sum

/-- Number of transactions of `txs` at merchant `m`. -/
def merchant_count (txs : List Transaction) (m : String) : Nat :=
  (txs.filter (fun t => decide (t.merchant = m))).length

@[simp] theorem keys0_nil {α : Type} : keys0 ([] : List (String × α)) = [] := rfl

@[simp] theorem keys0_cons {α : Type} (p : String × α) (m : List (String × α)) :
    keys0 (p :: m) = p.1 :: keys0 m := rfl

theorem detect_fraud_set (t : Transaction) (b : Bool) :
    detect_fraud { t with is_fraud := b } = detect_fraud t := rfl

theorem lookup0_assocAdd {α : Type} [AddCommMonoid α] (m : List (String × α))
    (k k' : String) (v : α) :
    lookup0 (assocAdd m k v) k' = lookup0 m k' + (if k' = k then v else 0) := by
  induction m with
  | nil =>
    simp only [assocAdd, lookup0]
    rcases eq_or_ne k k' with h | h
    · subst h; simp
    · rw [if_neg h, if_neg (Ne.symm h)]; simp
  | cons p rest ih =>
    by_cases h1 : p.1 = k
    · simp only [assocAdd, if_pos h1, lookup0]
      by_cases h2 : p.1 = k'
      · have hk : k' = k := by rw [← h2]; exact h1
        simp [if_pos h2, hk, h1]
      · have hk : k' ≠ k := fun hh => h2 (h1.trans hh.symm)
        simp [if_neg h2, if_neg hk]
    · simp only [assocAdd, if_neg h1, lookup0]
      by_cases h2 : p.1 = k'
      · have hk : k' ≠ k := fun hh => h1 (h2.trans hh)
        simp [if_pos h2, if_neg hk]
      · simp [if_neg h2, ih]

theorem lookup0_fold {α : Type} [AddCommMonoid α] (kf : Transaction → String)
    (vf : Transaction → α) (txs : List Transaction)
    (m0 : List (String × α)) (k : String) :
    lookup0 (txs.foldl (fun m t => assocAdd m (kf t) (vf t)) m0) k
      = lookup0 m0 k + ((txs.filter (fun t => decide (kf t = k))).map vf).sum := by
  induction txs generalizing m0 with
  | nil => simp
  | cons t rest ih =>
    simp only [List.foldl_cons, ih, lookup0_assocAdd, List.filter_cons]
    by_cases h : kf t = k
    · simp [h, add_assoc]
    · simp [h, Ne.symm h]

theorem mem_keys0_assocAdd {α : Type} [Add α] (m : List (String × α))
    (k k' : String) (v : α) :
    k' ∈ keys0 (assocAdd m k v) ↔ k' ∈ keys0 m ∨ k' = k := by
  induction m with
  | nil => simp [assocAdd]
  | cons p rest ih =>
    by_cases h : p.1 = k
    · simp only [assocAdd, if_pos h, keys0_cons, List.mem_cons]
      constructor
      · intro hc; rcases hc with hc | hc
        · exact Or.inl (Or.inl hc)
        · exact Or.inl (Or.inr hc)
      · intro hc
        rcases hc with (hc | hc) | hc
        · exact Or.inl hc
        · exact Or.inr hc
        · exact Or.inl (by rw [hc, ← h])
    · simp only [assocAdd, if_neg h, keys0_cons, List.mem_cons, ih]
      tauto

theorem nodup_keys0_assocAdd {α : Type} [Add α] (m : List (String × α))
    (k : String) (v : α) (h : (keys0 m).Nodup) :
    (keys0 (assocAdd m k v)).Nodup := by
  induction m with
  | nil => simp [assocAdd]
  | cons p rest ih =>
    rw [keys0_cons, List.nodup_cons] at h
    by_cases hpk : p.1 = k
    · simpa [assocAdd, if_pos hpk, List.nodup_cons] using h
    · rw [assocAdd]
      simp only [if_neg hpk, keys0_cons, List.nodup_cons]
      refine ⟨?_, ih h.2⟩
      intro hc
      rcases (mem_keys0_assocAdd rest k p.1 v).mp hc with hc | hc
      · exact h.1 hc
      · exact hpk hc

theorem mem_keys0_fold {α : Type} [Add α] (kf : Transaction → String)
    (vf : Transaction → α) (txs : List Transaction)
    (m0 : List (String × α)) (k : String) :
    k ∈ keys0 (txs.foldl (fun m t => assocAdd m (kf t) (vf t)) m0)
      ↔ k ∈ keys0 m0 ∨ ∃ t ∈ txs, kf t = k := by
  induction txs generalizing m0 with
  | nil => simp
  | cons t rest ih =>
    rw [List.foldl_cons, ih, mem_keys0_assocAdd]
    constructor
    · intro hc
      rcases hc with (hc | hc) | hc
      · exact Or.inl hc
      · exact Or.inr ⟨t, List.mem_cons_self t rest, hc.symm⟩
      · obtain ⟨u, hu, hk⟩ := hc
        exact Or.inr ⟨u, List.mem_cons_of_mem t hu, hk⟩
    · intro hc
      rcases hc with hc | hc
      · exact Or.inl (Or.inl hc)
      · obtain ⟨u, hu, hk⟩ := hc
        rcases List.mem_cons.mp hu with hu | hu
        · subst hu; exact Or.inl (Or.inr hk.symm)
        · exact Or.inr ⟨u, hu, hk⟩

theorem nodup_keys0_fold {α : Type} [Add α] (kf : Transaction → String)
    (vf : Transaction → α) (txs : List Transaction)
    (m0 : List (String × α)) (h : (keys0 m0).Nodup) :
    (keys0 (txs.foldl (fun m t => assocAdd m (kf t) (vf t)) m0)).Nodup := by
  induction txs generalizing m0 with
  | nil => exact h
  | cons t rest ih => exact ih _ (nodup_keys0_assocAdd m0 (kf t) (vf t) h)

theorem lookup0_of_mem {α : Type} [Zero α] (m : List (String × α))
    (p : String × α) (hmem : p ∈ m) (hnd : (keys0 m).Nodup) :
    lookup0 m p.1 = p.2 := by
  induction m with
  | nil => cases hmem
  | cons q rest ih =>
    rw [keys0_cons, List.nodup_cons] at hnd
    rcases List.mem_cons.mp hmem with h | h
    · subst h; simp [lookup0]
    · have hq : q.1 ≠ p.1 := by
        intro he
        exact hnd.1 (he ▸ List.mem_map_of_mem (fun p => p.1) h)
      rw [lookup0, if_neg hq]
      exact ih h hnd.2

theorem mem_keys0_iff {α : Type} (m : List (String × α)) (k : String) :
    k ∈ keys0 m ↔ ∃ p ∈ m, p.1 = k := by
  simp [keys0, List.mem_map]

theorem maxFold_spec (rest : List (String × ℚ)) (a : String × ℚ) :
    (rest.foldl maxStep a = a ∨ rest.foldl maxStep a ∈ rest)
      ∧ a.2 ≤ (rest.foldl maxStep a).2
      ∧ ∀ q ∈ rest, q.2 ≤ (rest.foldl maxStep a).2 := by
  induction rest generalizing a with
  | nil => simp
  | cons b rest ih =>
    obtain ⟨hmem, hle, hall⟩ := ih (maxStep a b)
    rw [List.foldl_cons]
    refine ⟨?_, ?_, ?_⟩
    · rcases hmem with h | h
      · rw [h, maxStep]
        by_cases hb : b.2 > a.2
        · rw [if_pos hb]; exact Or.inr (List.mem_cons_self b rest)
        · rw [if_neg hb]; exact Or.inl rfl
      · exact Or.inr (List.mem_cons_of_mem b h)
    · refine le_trans ?_ hle
      rw [maxStep]
      by_cases hb : b.2 > a.2
      · rw [if_pos hb]; exact le_of_lt hb
      · rw [if_neg hb]
    · intro q hq
      rcases List.mem_cons.mp hq with h | h
      · subst h
        refine le_trans ?_ hle
        rw [maxStep]
        by_cases hb : q.2 > a.2
        · rw [if_pos hb]
        · rw [if_neg hb]; exact le_of_not_lt hb
      · exact hall q h

theorem maxByVal_spec (l : List (String × ℚ)) (p : String × ℚ)
    (h : maxByVal l = some p) : p ∈ l ∧ ∀ q ∈ l, q.2 ≤ p.2 := by
  cases l with
  | nil => cases h
  | cons a rest =>
    obtain ⟨hmem, hle, hall⟩ := maxFold_spec rest a
    rw [maxByVal] at h
    injection h with h
    subst h
    constructor
    · rcases hmem with h | h
      · rw [h]; exact List.mem_cons_self a rest
      · exact List.mem_cons_of_mem a h
    · intro q hq
      rcases List.mem_cons.mp hq with h | h
      · subst h; exact hle
      · exact hall q h

theorem sum_map_one (l : List Transaction) :
    (l.map (fun _ => (1 : Nat))).sum = l.length := by
  induction l with
  | nil => rfl
  | cons t rest ih => simp [ih, Nat.add_comm]

theorem submit_transaction_ok (store : List Transaction) (tx : Transaction)
    (r : SubmitOk) (h : submit_transaction store tx = Except.ok r) :
    r.resp = { tx with is_fraud := detect_fraud tx }
      ∧ r.store = store ++ [{ tx with is_fraud := detect_fraud tx }]
      ∧ r.alerted = detect_fraud tx
      ∧ store.any (fun s => decide (s.id = tx.id)) = false := by
  simp only [submit_transaction, save] at h
  split at h
  · exact absurd h (by simp)
  · rename_i store' heq
    injection h with h
    subst h
    split at heq
    · exact absurd heq (by simp)
    · rename_i hc
      injection heq with heq
      subst heq
      refine ⟨rfl, rfl, rfl, ?_⟩
      simpa using hc

/-- Example transactions used by the concrete witnesses. -/
def tx_w : Transaction :=
  { id := "a1", user_id := "7", amount := 120, currency := "ZAR", timestamp := 0,
    merchant := "Checkers", location := "Durban", category := "Groceries",
    is_fraud := false }

/-- The `SubmitOk` value produced by submitting `tx_w` to the empty store. -/
def tx_w_ok : SubmitOk :=
  ⟨{ tx_w with is_fraud := false }, [{ tx_w with is_fraud := false }], false⟩

/-- A second transaction sharing `tx_w`'s id. -/
def dup_tx : Transaction :=
  { id := "a1", user_id := "8", amount := 999, currency := "ZAR", timestamp := 1,
    merchant := "Uber", location := "Cape Town", category := "Transport",
    is_fraud := false }

/-- C1: `detect_fraud` flags a transaction iff its amount strictly exceeds
10000 or its location is not an exact member of the allow-list
{"Cape Town", "Johannesburg", "Durban"}; it is a total pure function of the
transaction, so it is deterministic and has no error outcome. -/
theorem detect_fraud_iff (t : Transaction) :
    detect_fraud t = true
      ↔ t.amount > 10000 ∨ t.location ∉ fraud_allowed_locations := by
  rw [detect_fraud]
  by_cases h1 : t.amount > 10000
  · simp [h1]
  · rw [if_neg h1]
    by_cases h2 : t.location ∈ fraud_allowed_locations
    · have ha : fraud_allowed_locations.any (fun l => decide (l = t.location)) = true :=
        List.any_eq_true.mpr ⟨t.location, h2, by simp⟩
      rw [ha]
      simp [h1, h2]
    · have ha : fraud_allowed_locations.any (fun l => decide (l = t.location)) = false := by
        rw [List.any_eq_false]
        intro x hx hxe
        rw [decide_eq_true_eq] at hxe
        exact h2 (hxe ▸ hx)
      rw [ha]
      simp [h2]

/-- C2: two submissions that differ only in the client-supplied `is_fraud`
field behave identically, and on success the stored and returned transaction
carry the server-computed `detect_fraud` value. -/
theorem submit_ignores_client_is_fraud (store : List Transaction)
    (tx : Transaction) (b₁ b₂ : Bool) :
    submit_transaction store { tx with is_fraud := b₁ }
        = submit_transaction store { tx with is_fraud := b₂ }
      ∧ ∀ r, submit_transaction store { tx with is_fraud := b₁ } = Except.ok r →
          r.resp.is_fraud = detect_fraud tx ∧ r.store = store ++ [r.resp] := by
  refine ⟨rfl, ?_⟩
  intro r h
  obtain ⟨h1, h2, -, -⟩ :=
    submit_transaction_ok store { tx with is_fraud := b₁ } r h
  constructor
  · simp [h1, detect_fraud_set]
  · simp [h2, h1]

/-- Witness for C2 at a concrete transaction and store. -/
theorem submit_ignores_client_is_fraud_witness :
    submit_transaction [] { tx_w with is_fraud := true }
        = submit_transaction [] { tx_w with is_fraud := false }
      ∧ ∀ r, submit_transaction [] { tx_w with is_fraud := true } = Except.ok r →
          r.resp.is_fraud = detect_fraud tx_w ∧ r.store = [] ++ [r.resp] :=
  submit_ignores_client_is_fraud [] tx_w true false

/-- C3: a successful submission followed by a fetch of the returned id yields
exactly the transaction the submission returned, whose fields are the
submitted ones with `is_fraud` replaced by the server-computed value. -/
theorem submit_then_get_roundtrip (store : List Transaction) (tx : Transaction)
    (r : SubmitOk) (h : submit_transaction store tx = Except.ok r) :
    get_transaction r.store r.resp.id = Except.ok r.resp
      ∧ r.resp = { tx with is_fraud := detect_fraud tx } := by
  obtain ⟨h1, h2, -, hc⟩ := submit_transaction_ok store tx r h
  refine ⟨?_, h1⟩
  rw [h2, h1, get_transaction]
  rw [List.find?_append]
  have hnone : store.find?
      (fun t => decide (t.id = ({ tx with is_fraud := detect_fraud tx } : Transaction).id))
        = none := by
    rw [List.find?_eq_none]
    intro x hx hxe
    rw [List.any_eq_false] at hc
    exact hc x hx (by simpa using hxe)
  rw [hnone]
  simp [List.find?]

/-- Witness for C3: submitting `tx_w` to the empty store and fetching it
back. -/
theorem submit_then_get_roundtrip_witness :
    submit_transaction [] tx_w = Except.ok tx_w_ok
      ∧ (get_transaction tx_w_ok.store tx_w_ok.resp.id = Except.ok tx_w_ok.resp
          ∧ tx_w_ok.resp = { tx_w with is_fraud := detect_fraud tx_w }) :=
  ⟨by decide, submit_then_get_roundtrip [] tx_w tx_w_ok (by decide)⟩

/-- C4: submitting a transaction whose id is already stored makes the store
write fail with the duplicate-key conflict, and the handler surfaces that
failure; no new store is produced, so the stored rows are unchanged. -/
theorem duplicate_id_rejected (store : List Transaction) (t s : Transaction)
    (hs : s ∈ store) (hid : s.id = t.id) :
    save store t = Except.error ApiError.conflict
      ∧ submit_transaction store t = Except.error ApiError.conflict := by
  have hc : store.any (fun x => decide (x.id = t.id)) = true :=
    List.any_eq_true.mpr ⟨s, hs, by simp [hid]⟩
  constructor
  · rw [save, if_pos hc]
  · simp only [submit_transaction, save]
    rw [if_pos hc]

/-- Witness for C4: `dup_tx` collides with the already-stored first submission
of `tx_w`. -/
theorem duplicate_id_rejected_witness :
    ({ tx_w with is_fraud := false } : Transaction) ∈ tx_w_ok.store
      ∧ ({ tx_w with is_fraud := false } : Transaction).id = dup_tx.id
      ∧ (save tx_w_ok.store dup_tx = Except.error ApiError.conflict
          ∧ submit_transaction tx_w_ok.store dup_tx
              = Except.error ApiError.conflict) :=
  ⟨by decide, by decide,
    duplicate_id_rejected tx_w_ok.store dup_tx { tx_w with is_fraud := false }
      (by decide) (by decide)⟩

/-- A transaction with a negative amount, accepted by the service. -/
def neg_tx : Transaction :=
  { id := "n1", user_id := "9", amount := -5, currency := "ZAR", timestamp := 0,
    merchant := "Uber", location := "Cape Town", category := "Transport",
    is_fraud := false }

/-- A concrete draw stream for the simulator witnesses. -/
def draws_w : Nat → SimDraw :=
  fun i => ⟨"sim-" ++ toString i, 100 + i, 50, 0, i, i, i⟩

/-- C8: whatever the SMTP outcome, `send_email_alert` returns normally (the
`except` swallows the failure), leaves the stored transactions untouched, and
is a no-op when the enabled flag is off; the shipped config has the flag
off. -/
theorem send_email_alert_safe (enabled : Bool) (smtp : Except String Unit)
    (t : Transaction) (store : List Transaction) :
    (∃ r : NotifyResult, send_email_alert enabled smtp t store = Except.ok r
        ∧ r.store = store
        ∧ (enabled = false → r = ⟨store, [], []⟩))
      ∧ EMAIL_ALERTS_ENABLED = false := by
  refine ⟨?_, rfl⟩
  cases enabled
  · exact ⟨⟨store, [], []⟩, rfl, rfl, fun _ => rfl⟩
  · cases smtp with
    | ok u =>
        exact ⟨⟨store, [], [("from@example.com", ALERT_EMAIL, alert_message t)]⟩,
          rfl, rfl, fun hc => absurd hc (by simp)⟩
    | error e =>
        exact ⟨⟨store, ["Failed to send email: " ++ e], []⟩,
          rfl, rfl, fun hc => absurd hc (by simp)⟩

/-- Witness for C8 at a concrete failing transport. -/
theorem send_email_alert_safe_witness :
    (∃ r : NotifyResult,
        send_email_alert false (Except.error "connection refused") tx_w [tx_w]
            = Except.ok r
          ∧ r.store = [tx_w]
          ∧ (false = false → r = ⟨[tx_w], [], []⟩))
      ∧ EMAIL_ALERTS_ENABLED = false :=
  send_email_alert_safe false (Except.error "connection refused") tx_w [tx_w]

/-- C9 counterexample: the pydantic schema types `amount` as a plain float
and the handler never checks its sign, so a transaction with `amount = -5`
is accepted and persisted instead of being rejected with a
`ValidationError`. -/
theorem negative_amount_accepted :
    submit_transaction [] neg_tx
        = Except.ok ⟨{ neg_tx with is_fraud := false },
            [{ neg_tx with is_fraud := false }], false⟩
      ∧ neg_tx.amount < 0 :=
  ⟨by decide, by decide⟩

/-- C9 amended: the Submit handler performs no sign validation on `amount`:
any transaction whose id is not already stored — negative amount included —
is accepted, and the stored row keeps the submitted amount unchanged. -/
theorem submit_no_amount_check (store : List Transaction) (tx : Transaction)
    (h : store.any (fun s => decide (s.id = tx.id)) = false) :
    ∃ r, submit_transaction store tx = Except.ok r
      ∧ r.resp.amount = tx.amount ∧ r.store = store ++ [r.resp] := by
  refine ⟨⟨{ tx with is_fraud := detect_fraud tx },
      store ++ [{ tx with is_fraud := detect_fraud tx }], detect_fraud tx⟩,
    ?_, rfl, rfl⟩
  simp [submit_transaction, save, h]

/-- Witness for C9's amended claim at the negative-amount transaction. -/
theorem submit_no_amount_check_witness :
    ([] : List Transaction).any (fun s => decide (s.id = neg_tx.id)) = false
      ∧ ∃ r, submit_transaction [] neg_tx = Except.ok r
          ∧ r.resp.amount = neg_tx.amount ∧ r.store = [] ++ [r.resp] :=
  ⟨by decide, submit_no_amount_check [] neg_tx (by decide)⟩

/-- C6: a user with no stored transactions makes `user_insights` fail — the
`by_category` dict is empty so building the advice line raises — instead of
returning a neutral zero-valued summary. -/
theorem user_insights_empty_fails (store : List Transaction) (uid : String)
    (h : store.filter (fun t => decide (t.user_id = uid)) = []) :
    user_insights store uid = Except.error ApiError.valueError := by
  simp only [user_insights]
  rw [h]
  rfl

/-- Witness for C6: a store that holds no row for user "nobody". -/
theorem user_insights_empty_fails_witness :
    [tx_w].filter (fun t => decide (t.user_id = "nobody")) = []
      ∧ user_insights [tx_w] "nobody" = Except.error ApiError.valueError :=
  ⟨by decide, user_insights_empty_fails [tx_w] "nobody" (by decide)⟩

/-- C10: with a negative count the loop body never runs: the handler
succeeds, appends nothing to the store, and still interpolates the negative
count into the confirmation message. -/
theorem simulate_negative_count (store : List Transaction)
    (draws : Nat → SimDraw) (n : Int) (h : n < 0) :
    simulate_transactions store n draws
      = Except.ok (toString n ++ " transactions simulated.", store) := by
  have h0 : n.toNat = 0 := Int.toNat_of_nonpos (le_of_lt h)
  have hs : sim_rows draws n = [] := by
    rw [sim_rows, h0]
    rfl
  simp only [simulate_transactions, hs, commit_batch, bindRows]
  simp

/-- Witness for C10 at `n = -3`. -/
theorem simulate_negative_count_witness :
    (-3 : Int) < 0
      ∧ simulate_transactions [] (-3) draws_w
          = Except.ok (toString (-3 : Int) ++ " transactions simulated.", []) :=
  ⟨by decide, simulate_negative_count [] draws_w (-3) (by decide)⟩

/-- C7: the claim fails on the code. For every positive count the simulator
builds its rows with `TransactionDB(**tx.dict())`, whose id parameter is the
raw `uuid.UUID` object; the sqlite3 driver cannot bind it into the `String`
primary-key column, so the single commit raises `InterfaceError`: nothing is
persisted and no confirmation message is returned, for any store and any
draws. (The count parameter's declared default is `simulate_default_n = 5`.) -/
theorem simulate_uuid_binding_fails (store : List Transaction)
    (draws : Nat → SimDraw) (n : Int) (h : 1 ≤ n) :
    simulate_transactions store n draws = Except.error ApiError.interfaceError
      ∧ simulate_default_n = 5 := by
  refine ⟨?_, rfl⟩
  obtain ⟨k, hk⟩ : ∃ k, n.toNat = k + 1 := ⟨n.toNat - 1, by omega⟩
  have hrest : sim_rows draws n
      = make_sim_row (draws 0)
          :: (List.range k).map (fun i => make_sim_row (draws (i + 1))) := by
    rw [sim_rows, hk, List.range_succ_eq_map, List.map_cons, List.map_map]
    rfl
  simp only [simulate_transactions, hrest]
  rfl

/-- Witness for C7's failing input: one draw into the empty store. -/
theorem simulate_uuid_binding_fails_witness :
    (1 : Int) ≤ 1
      ∧ (simulate_transactions [] 1 draws_w
            = Except.error ApiError.interfaceError
          ∧ simulate_default_n = 5) :=
  ⟨by decide, simulate_uuid_binding_fails [] draws_w 1 (by decide)⟩

/-- C5: for a user with at least one stored transaction, `user_insights`
succeeds with: `total_spent` the sum of the user's amounts, `by_category`
mapping exactly the user's categories to their summed amounts,
`recurring_merchants` holding exactly the merchants of strictly more than
two of the user's transactions, and an advice line naming a category of the
user's with the highest per-category total. -/
theorem user_insights_spec (store : List Transaction) (uid : String)
    (h : store.filter (fun t => decide (t.user_id = uid)) ≠ []) :
    ∃ ins, user_insights store uid = Except.ok ins
      ∧ ins.user_id = uid
      ∧ ins.total_spent
          = ((store.filter (fun t => decide (t.user_id = uid))).map
              (fun t => t.amount)).sum
      ∧ (∀ c, lookup0 ins.by_category c
          = category_total (store.filter (fun t => decide (t.user_id = uid))) c)
      ∧ (∀ c, c ∈ keys0 ins.by_category
          ↔ ∃ t ∈ store.filter (fun t => decide (t.user_id = uid)),
              t.category = c)
      ∧ (∀ m, m ∈ ins.recurring_merchants
          ↔ merchant_count (store.filter (fun t => decide (t.user_id = uid))) m
              > 2)
      ∧ (∃ c, ins.advice
            = "Consider budgeting for high-spend categories like " ++ c
          ∧ (∃ t ∈ store.filter (fun t => decide (t.user_id = uid)),
              t.category = c)
          ∧ ∀ c', (∃ t ∈ store.filter (fun t => decide (t.user_id = uid)),
                t.category = c')
              → category_total
                    (store.filter (fun t => decide (t.user_id = uid))) c'
                  ≤ category_total
                      (store.filter (fun t => decide (t.user_id = uid))) c) := by
  set txs := store.filter (fun t => decide (t.user_id = uid)) with htxs
  set byCat := txs.foldl (fun m t => assocAdd m t.category t.amount)
      ([] : List (String × ℚ)) with hbc
  set recur := txs.foldl (fun m t => assocAdd m t.merchant (1 : Nat))
      ([] : List (String × Nat)) with hrec
  have hlook : ∀ c, lookup0 byCat c = category_total txs c := by
    intro c
    rw [hbc, lookup0_fold (fun t => t.category) (fun t => t.amount) txs [] c]
    simp [category_total, lookup0]
  have hlookR : ∀ m, lookup0 recur m = merchant_count txs m := by
    intro m
    rw [hrec, lookup0_fold (fun t => t.merchant) (fun t => (1 : Nat)) txs [] m]
    simp [merchant_count, lookup0, sum_map_one]
  have hkeys : ∀ c, c ∈ keys0 byCat ↔ ∃ t ∈ txs, t.category = c := by
    intro c
    rw [hbc, mem_keys0_fold (fun t => t.category) (fun t => t.amount) txs [] c]
    simp
  have hkeysR : ∀ m, m ∈ keys0 recur ↔ ∃ t ∈ txs, t.merchant = m := by
    intro m
    rw [hrec, mem_keys0_fold (fun t => t.merchant) (fun t => (1 : Nat)) txs [] m]
    simp
  have hndB : (keys0 byCat).Nodup := by
    rw [hbc]
    exact nodup_keys0_fold _ _ _ _ (by simp)
  have hndR : (keys0 recur).Nodup := by
    rw [hrec]
    exact nodup_keys0_fold _ _ _ _ (by simp)
  obtain ⟨t0, ht0⟩ := List.exists_mem_of_ne_nil txs h
  have hbne : byCat ≠ [] := by
    intro he
    have hmem := (hkeys t0.category).mpr ⟨t0, ht0, rfl⟩
    rw [he] at hmem
    simp at hmem
  obtain ⟨p, hp⟩ : ∃ p, maxByVal byCat = some p := by
    cases hcb : byCat with
    | nil => exact absurd hcb hbne
    | cons a rest => exact ⟨_, rfl⟩
  obtain ⟨hpmem, hpmax⟩ := maxByVal_spec byCat p hp
  refine ⟨{ user_id := uid,
            total_spent := (txs.map (fun t => t.amount)).sum,
            by_category := byCat,
            recurring_merchants :=
              (recur.filter (fun q => q.2 > 2)).map (fun q => q.1),
            advice := "Consider budgeting for high-spend categories like "
              ++ p.1 },
    ?_, rfl, rfl, hlook, hkeys, ?_, ?_⟩
  · simp only [user_insights]
    rw [← htxs, ← hbc, ← hrec, hp]
  · intro m
    constructor
    · intro hm
      obtain ⟨q, hq, hqm⟩ := List.mem_map.mp hm
      obtain ⟨hqr, hq2⟩ := List.mem_filter.mp hq
      have h2 : 2 < q.2 := by simpa using hq2
      have hl : lookup0 recur q.1 = q.2 := lookup0_of_mem recur q hqr hndR
      subst hqm
      rw [gt_iff_lt, ← hlookR q.1, hl]
      exact h2
    · intro hm2
      have hmem : m ∈ keys0 recur := by
        rw [hkeysR m]
        have hne : txs.filter (fun t => decide (t.merchant = m)) ≠ [] := by
          intro he
          rw [gt_iff_lt, ← hlookR m, hlookR m, merchant_count, he] at hm2
          simp at hm2
        obtain ⟨t, ht⟩ := List.exists_mem_of_ne_nil _ hne
        obtain ⟨htx, htm⟩ := List.mem_filter.mp ht
        exact ⟨t, htx, by simpa using htm⟩
      obtain ⟨q, hqr, hqm⟩ := (mem_keys0_iff recur m).mp hmem
      refine List.mem_map.mpr ⟨q, List.mem_filter.mpr ⟨hqr, ?_⟩, hqm⟩
      have hl : lookup0 recur q.1 = q.2 := lookup0_of_mem recur q hqr hndR
      rw [hqm] at hl
      have hq2 : q.2 = merchant_count txs m := by rw [← hl, hlookR m]
      simpa [hq2] using hm2
  · refine ⟨p.1, rfl, ?_, ?_⟩
    · exact (hkeys p.1).mp ((mem_keys0_iff byCat p.1).mpr ⟨p, hpmem, rfl⟩)
    · rintro c' ⟨t, ht, htc⟩
      have hc' : c' ∈ keys0 byCat := (hkeys c').mpr ⟨t, ht, htc⟩
      obtain ⟨q, hq, hqc⟩ := (mem_keys0_iff byCat c').mp hc'
      have h1 : lookup0 byCat c' = q.2 := by
        rw [← hqc]
        exact lookup0_of_mem byCat q hq hndB
      have h2 : lookup0 byCat p.1 = p.2 := lookup0_of_mem byCat p hpmem hndB
      rw [← hlook c', ← hlook p.1, h1, h2]
      exact hpmax q hq

/-- The spec's insights scenario: three transactions for user "42". -/
def store42 : List Transaction :=
  [{ id := "t1", user_id := "42", amount := 100, currency := "ZAR",
     timestamp := 0, merchant := "Checkers", location := "Cape Town",
     category := "Groceries", is_fraud := false },
   { id := "t2", user_id := "42", amount := 200, currency := "ZAR",
     timestamp := 1, merchant := "Checkers", location := "Cape Town",
     category := "Groceries", is_fraud := false },
   { id := "t3", user_id := "42", amount := 50, currency := "ZAR",
     timestamp := 2, merchant := "Uber", location := "Cape Town",
     category := "Transport", is_fraud := false }]

/-- Witness for C5 on the spec's scenario store. -/
theorem user_insights_spec_witness :
    store42.filter (fun t => decide (t.user_id = "42")) ≠ []
      ∧ ∃ ins, user_insights store42 "42" = Except.ok ins
          ∧ ins.user_id = "42"
          ∧ ins.total_spent
              = ((store42.filter (fun t => decide (t.user_id = "42"))).map
                  (fun t => t.amount)).sum
          ∧ (∀ c, lookup0 ins.by_category c
              = category_total
                  (store42.filter (fun t => decide (t.user_id = "42"))) c)
          ∧ (∀ c, c ∈ keys0 ins.by_category
              ↔ ∃ t ∈ store42.filter (fun t => decide (t.user_id = "42")),
                  t.category = c)
          ∧ (∀ m, m ∈ ins.recurring_merchants
              ↔ merchant_count
                  (store42.filter (fun t => decide (t.user_id = "42"))) m > 2)
          ∧ (∃ c, ins.advice
                = "Consider budgeting for high-spend categories like " ++ c
              ∧ (∃ t ∈ store42.filter (fun t => decide (t.user_id = "42")),
                  t.category = c)
              ∧ ∀ c', (∃ t ∈ store42.filter (fun t => decide (t.user_id = "42")),
                    t.category = c')
                  → category_total
                        (store42.filter (fun t => decide (t.user_id = "42"))) c'
                      ≤ category_total
                          (store42.filter (fun t => decide (t.user_id = "42"))) c) :=
  ⟨by decide, user_insights_spec store42 "42" (by decide)⟩

end SmartFinance
